import Mathlib

/-!
Shallow embedding of the `api_task` service (`api_task.py`, `models.py`,
`pydantic_schemas.py`): a minimal authenticated content service with JWT
session tokens and a per-user TTL post cache.

Modelling conventions:
* Time is a `Nat` number of seconds, threaded explicitly (`now`) into every
  handler; the Python code reads the real clock at the same points.
* A JWT string is modelled abstractly: a well-formed token carries its payload
  together with the payload/key pair that was actually signed (so a tampered
  token is one whose signature was computed over different data), and a
  separate constructor stands for strings that do not parse as a JWT at all.
  PyJWT verifies the signature before validating the `exp` claim; `jwtDecode`
  mirrors that order.
* The SQLite tables are lists of rows; the autoincrement primary key of a new
  row is one more than the largest existing id.
* `cachetools.TTLCache(maxsize=100, ttl=300)` is a list of entries ordered
  oldest-first; lookups ignore entries whose age reached the TTL, and an
  insert first drops expired entries, then appends, then evicts from the
  front down to capacity, exactly as `TTLCache.__setitem__` does.
* Handlers return `Except HTTPException result × AppState`; every error path
  in the source raises before mutating, so errors leave the state unchanged.
-/

deriving instance DecidableEq for Except

namespace ApiTask

/-- Row of the `users` table (`models.py`): `users(id, email unique, password)`. -/
structure User where
  id : Nat
  email : String
  password : String
deriving DecidableEq

/-- Row of the `posts` table (`models.py`): `posts(id, text, owner_id -> users.id)`. -/
structure Post where
  id : Nat
  text : String
  owner_id : Nat
deriving DecidableEq

/-- pydantic `PostResponse` schema: the `{id, text}` shape returned by `/getposts`. -/
structure PostResponse where
  id : Nat
  text : String
deriving DecidableEq

/-- Serialization of a `Post` row through `response_model=List[PostResponse]`. -/
def Post.toResponse (p : Post) : PostResponse :=
  { id := p.id, text := p.text }

/-- `SECRET_KEY = ""` from `api_task.py`. -/
def SECRET_KEY : String := ""

/-- JWT payload `{"sub": user_id, "exp": timestamp}` (seconds). -/
structure Payload where
  sub : Nat
  exp : Nat
deriving DecidableEq

/-- A JWT string. `signed payload sigPayload sigKey` is a structurally
well-formed token whose claim set is `payload` and whose signature was
computed over `sigPayload` with key `sigKey` (so the signature verifies
against key `k` iff `sigPayload = payload` and `sigKey = k`); `malformed`
is a string that does not parse as a JWT. -/
inductive Token where
  | signed (payload : Payload) (sigPayload : Payload) (sigKey : String)
  | malformed (raw : String)
deriving DecidableEq

/-- Errors raised by `jwt.decode`. -/
inductive JwtError where
  | ExpiredSignatureError
  | InvalidTokenError
deriving DecidableEq

/-- `jwt.encode(payload, key, algorithm="HS256")`: the signature covers the
payload with the given key. -/
def jwtEncode (p : Payload) (key : String) : Token :=
  .signed p p key

/-- `jwt.decode(token, key, algorithms=["HS256"])` at time `now`.
PyJWT first parses the structure, then verifies the signature
(`InvalidSignatureError ≤ InvalidTokenError` on failure), and only then
validates the `exp` claim, raising `ExpiredSignatureError` when
`exp <= now`. -/
def jwtDecode (t : Token) (key : String) (now : Nat) : Except JwtError Payload :=
  match t with
  | .malformed _ => .error .InvalidTokenError
  | .signed p sigP sigK =>
    if sigP = p ∧ sigK = key then
      if p.exp ≤ now then .error .ExpiredSignatureError
      else .ok p
    else .error .InvalidTokenError

/-- `create_token(user_id)`: payload `{"sub": user_id, "exp": now + 1 hour}`. -/
def create_token (user_id : Nat) (now : Nat) : Token :=
  jwtEncode { sub := user_id, exp := now + 3600 } SECRET_KEY

/-- `fastapi.HTTPException(status_code, detail)`. -/
structure HTTPException where
  status_code : Nat
  detail : String
deriving DecidableEq

/-- Entry of the post cache: the list cached for user `key`, inserted at
`insertedAt` (its TTL clock starts there). -/
structure CacheEntry where
  key : Nat
  value : List Post
  insertedAt : Nat
deriving DecidableEq

/-- `ttl=300` seconds (5 minutes) from `TTLCache(maxsize=100, ttl=300)`. -/
def CACHE_TTL : Nat := 300

/-- `maxsize=100` from `TTLCache(maxsize=100, ttl=300)`. -/
def CACHE_MAXSIZE : Nat := 100

/-- `TTLCache.expire(now)`: drop every entry whose age reached the TTL. -/
def cacheExpire (now : Nat) (c : List CacheEntry) : List CacheEntry :=
  c.filter (fun e => now < e.insertedAt + CACHE_TTL)

/-- `user_id in post_cache` followed by `post_cache[user_id]`: a hit iff an
entry for the key is present and its age is still below the TTL. -/
def cacheGet (now : Nat) (c : List CacheEntry) (k : Nat) : Option (List Post) :=
  match (cacheExpire now c).find? (fun e => e.key == k) with
  | some e => some e.value
  | none => none

/-- `post_cache[user_id] = value` (`TTLCache.__setitem__`): expire old
entries, replace any entry for the key moving it to the back with a fresh
TTL clock, and evict from the front while over capacity. -/
def cacheSet (now : Nat) (c : List CacheEntry) (k : Nat) (v : List Post) : List CacheEntry :=
  let kept := (cacheExpire now c).filter (fun e => e.key != k)
  let appended := kept ++ [{ key := k, value := v, insertedAt := now }]
  appended.drop (appended.length - CACHE_MAXSIZE)

/-- `post_cache.pop(user_id, None)`: remove the entry for the key if any. -/
def cachePop (c : List CacheEntry) (k : Nat) : List CacheEntry :=
  c.filter (fun e => e.key != k)

/-- The whole mutable state of the process: the two SQLite tables and the
module-level `post_cache`. -/
structure AppState where
  users : List User
  posts : List Post
  post_cache : List CacheEntry
deriving DecidableEq

/-- Autoincrement primary key for a new row: SQLite assigns
`max(existing ids) + 1` (1 on an empty table). -/
def nextId (ids : List Nat) : Nat :=
  ids.foldr max 0 + 1

/-- `verify_token(token, db)`: decode the JWT, then resolve the `sub` claim
against the `users` table; expired tokens give 401 "Token expired", bad
signatures, malformed tokens and unresolvable subjects give 401
"Invalid token". -/
def verify_token (token : Token) (s : AppState) (now : Nat) : Except HTTPException User :=
  match jwtDecode token SECRET_KEY now with
  | .ok payload =>
    match s.users.find? (fun u => u.id == payload.sub) with
    | some user => .ok user
    | none => .error { status_code := 401, detail := "Invalid token" }
  | .error .ExpiredSignatureError => .error { status_code := 401, detail := "Token expired" }
  | .error .InvalidTokenError => .error { status_code := 401, detail := "Invalid token" }

/-- pydantic `UserCreate` input schema. -/
structure UserCreate where
  email : String
  password : String
deriving DecidableEq

/-- Abstraction of pydantic `EmailStr` (the external email-validator
package): one `@` separating a nonempty local part from a domain that
contains a dot. The claims never depend on the exact boundary of email
well-formedness. -/
def emailOk (e : String) : Bool :=
  let cs := e.data
  let localPart := cs.takeWhile (fun c => c != '@')
  let afterLocal := cs.dropWhile (fun c => c != '@')
  match afterLocal with
  | '@' :: domain =>
    !localPart.isEmpty && !domain.isEmpty && domain.contains '.' && !domain.contains '@'
  | _ => false

/-- `UserCreate` validation: `email: EmailStr`, `password: constr(min_length=6)`. -/
def UserCreate.validOk (u : UserCreate) : Bool :=
  emailOk u.email && 6 ≤ u.password.length

/-- pydantic `PostCreate` input schema. -/
structure PostCreate where
  text : String
deriving DecidableEq

/-- `PostCreate` validation: `text: constr(max_length=1000000)` — pydantic
counts characters of the `str`. -/
def PostCreate.validOk (p : PostCreate) : Bool :=
  p.text.length ≤ 1000000

/-- The 422 response FastAPI produces when pydantic validation rejects the
request body. -/
def validationError : HTTPException :=
  { status_code := 422, detail := "validation error" }

/-- `POST /signup` handler body: reject a duplicate email with 400, else
insert the user and return a fresh token for the new id. -/
def signup (user : UserCreate) (s : AppState) (now : Nat) :
    Except HTTPException Token × AppState :=
  if s.users.any (fun x => x.email == user.email) then
    (.error { status_code := 400, detail := "Email already registered" }, s)
  else
    let new_user : User :=
      { id := nextId (s.users.map User.id), email := user.email, password := user.password }
    (.ok (create_token new_user.id now), { s with users := s.users ++ [new_user] })

/-- `POST /login` handler body: exact email+password match or 400. -/
def login (user : UserCreate) (s : AppState) (now : Nat) :
    Except HTTPException Token × AppState :=
  match s.users.find? (fun x => x.email == user.email && x.password == user.password) with
  | none => (.error { status_code := 400, detail := "Invalid credentials" }, s)
  | some user_record => (.ok (create_token user_record.id now), s)

/-- `POST /addpost` handler body: authenticate, insert the post for the
resolved user, invalidate that user's cache entry, return the new post id. -/
def add_post (post : PostCreate) (token : Token) (s : AppState) (now : Nat) :
    Except HTTPException Nat × AppState :=
  match verify_token token s now with
  | .error e => (.error e, s)
  | .ok user =>
    let new_post : Post :=
      { id := nextId (s.posts.map Post.id), text := post.text, owner_id := user.id }
    (.ok new_post.id,
      { s with
          posts := s.posts ++ [new_post],
          post_cache := cachePop s.post_cache user.id })

/-- `GET /getposts` handler body: authenticate, consult the cache first; on a
miss read the user's posts from the table, populate the cache, return them. -/
def get_posts (token : Token) (s : AppState) (now : Nat) :
    Except HTTPException (List Post) × AppState :=
  match verify_token token s now with
  | .error e => (.error e, s)
  | .ok user =>
    match cacheGet now s.post_cache user.id with
    | some cached => (.ok cached, s)
    | none =>
      let posts := s.posts.filter (fun p => p.owner_id == user.id)
      (.ok posts, { s with post_cache := cacheSet now s.post_cache user.id posts })

/-- `DELETE /deletepost` handler body: authenticate, find the post scoped to
(post id, owner id); 404 when absent, else delete that row and invalidate
the user's cache entry. -/
def delete_post (postID : Nat) (token : Token) (s : AppState) (now : Nat) :
    Except HTTPException String × AppState :=
  match verify_token token s now with
  | .error e => (.error e, s)
  | .ok user =>
    match s.posts.find? (fun p => p.id == postID && p.owner_id == user.id) with
    | none => (.error { status_code := 404, detail := "Post not found" }, s)
    | some _ =>
      (.ok "Post deleted",
        { s with
            posts := s.posts.eraseP (fun p => p.id == postID && p.owner_id == user.id),
            post_cache := cachePop s.post_cache user.id })

/-- `POST /signup` endpoint: pydantic validation of the body, then the handler. -/
def signupEndpoint (user : UserCreate) (s : AppState) (now : Nat) :
    Except HTTPException Token × AppState :=
  if user.validOk then signup user s now else (.error validationError, s)

/-- `POST /addpost` endpoint: pydantic validation of the body, then the handler. -/
def addPostEndpoint (post : PostCreate) (token : Token) (s : AppState) (now : Nat) :
    Except HTTPException Nat × AppState :=
  if post.validOk then add_post post token s now else (.error validationError, s)

/-- `GET /getposts` endpoint: the handler's rows serialized through
`response_model=List[PostResponse]`. -/
def getPostsEndpoint (token : Token) (s : AppState) (now : Nat) :
    Except HTTPException (List PostResponse) × AppState :=
  match get_posts token s now with
  | (.ok posts, s') => (.ok (posts.map Post.toResponse), s')
  | (.error e, s') => (.error e, s')

/-- Predicate used to state C3: the token's signature verifies against the
process secret. -/
def Token.sigOk : Token → Bool
  | .signed p sigP sigK => sigP == p && sigK == SECRET_KEY
  | .malformed _ => false

/-- Predicate used to state C3: the token string is structurally malformed. -/
def Token.isMalformed : Token → Bool
  | .signed _ _ _ => false
  | .malformed _ => true

/-- Predicate used to state C3: the embedded subject id matches some user row. -/
def Token.subjectResolves (t : Token) (s : AppState) : Bool :=
  match t with
  | .signed p _ _ => s.users.any (fun u => u.id == p.sub)
  | .malformed _ => false

/-- Predicate used to state C3: the embedded expiry has not yet been reached. -/
def Token.unexpiredAt (t : Token) (now : Nat) : Bool :=
  match t with
  | .signed p _ _ => now < p.exp
  | .malformed _ => false

/-! ## Helper lemmas -/

theorem le_foldr_max (l : List Nat) : ∀ x ∈ l, x ≤ l.foldr max 0 := by
  induction l with
  | nil => simp
  | cons a t ih =>
    intro x hx
    rcases List.mem_cons.mp hx with rfl | hx
    · exact le_max_left _ _
    · exact le_trans (ih x hx) (le_max_right _ _)

theorem find?_append_right {α : Type} {p : α → Bool} {l₁ l₂ : List α}
    (h : ∀ a ∈ l₁, p a = false) : (l₁ ++ l₂).find? p = l₂.find? p := by
  rw [List.find?_append]
  have h1 : l₁.find? p = none := List.find?_eq_none.mpr (by intro x hx; simp [h x hx])
  rw [h1, Option.none_or]

theorem cacheGet_eq_none {now : Nat} {c : List CacheEntry} {k : Nat}
    (h : ∀ e ∈ c, e.key ≠ k) : cacheGet now c k = none := by
  unfold cacheGet
  have hf : (cacheExpire now c).find? (fun e => e.key == k) = none := by
    refine List.find?_eq_none.mpr ?_
    intro e he
    have hec : e ∈ c := (List.mem_filter.mp he).1
    simp [h e hec]
  rw [hf]

theorem cacheGet_cachePop (now : Nat) (c : List CacheEntry) (k : Nat) :
    cacheGet now (cachePop c k) k = none := by
  apply cacheGet_eq_none
  intro e he
  have h2 := (List.mem_filter.mp he).2
  simpa using h2

theorem jwtDecode_create_token_fresh {uid now t : Nat} (ht : t < now + 3600) :
    jwtDecode (create_token uid now) SECRET_KEY t = .ok { sub := uid, exp := now + 3600 } := by
  simp only [create_token, jwtEncode, jwtDecode]
  rw [if_pos (by simp), if_neg (by omega)]

theorem verify_create_ok {s : AppState} {uid : Nat} {u : User} (now t : Nat)
    (hfind : s.users.find? (fun x => x.id == uid) = some u) (ht : t < now + 3600) :
    verify_token (create_token uid now) s t = .ok u := by
  simp only [verify_token, jwtDecode_create_token_fresh ht, hfind]

theorem verify_create_expired (s : AppState) (uid now t : Nat) (ht : now + 3600 ≤ t) :
    verify_token (create_token uid now) s t =
      .error { status_code := 401, detail := "Token expired" } := by
  have hdec : jwtDecode (create_token uid now) SECRET_KEY t = .error .ExpiredSignatureError := by
    simp only [create_token, jwtEncode, jwtDecode]
    rw [if_pos (by simp), if_pos ht]
  simp only [verify_token, hdec]

/-- Changing only the `posts` table does not affect token verification. -/
theorem verify_token_set_posts (tok : Token) (s : AppState) (now : Nat) (ps : List Post) :
    verify_token tok { s with posts := ps } now = verify_token tok s now := rfl

/-! ## Claims -/

/-- C2: a token issued for user id `uid` at time `now` embeds subject `uid`
and expiry `now + 3600` seconds (1 hour); verifying it at any time within
its lifetime resolves to the user record with that id, and verifying it at
any time after the embedded expiry fails with 401 "Token expired". -/
theorem c2_token_lifecycle (uid now : Nat) (s : AppState) (u : User) :
    create_token uid now =
        Token.signed { sub := uid, exp := now + 3600 } { sub := uid, exp := now + 3600 }
          SECRET_KEY ∧
    (s.users.find? (fun x => x.id == uid) = some u →
      ∀ t, t < now + 3600 → verify_token (create_token uid now) s t = .ok u) ∧
    (∀ t, now + 3600 < t →
      verify_token (create_token uid now) s t =
        .error { status_code := 401, detail := "Token expired" }) := by
  refine ⟨rfl, ?_, ?_⟩
  · intro hfind t ht
    exact verify_create_ok now t hfind ht
  · intro t ht
    exact verify_create_expired s uid now t (le_of_lt ht)

/-- Witness for C2 at a concrete state: verification succeeds at time 5 and
reports expiry at time 4000 for a token issued at time 0. -/
theorem c2_token_lifecycle_witness :
    verify_token (create_token 1 0) ⟨[⟨1, "a@x.com", "pw1234"⟩], [], []⟩ 5 =
        .ok ⟨1, "a@x.com", "pw1234"⟩ ∧
    verify_token (create_token 1 0) ⟨[⟨1, "a@x.com", "pw1234"⟩], [], []⟩ 4000 =
        .error { status_code := 401, detail := "Token expired" } :=
  ⟨(c2_token_lifecycle 1 0 ⟨[⟨1, "a@x.com", "pw1234"⟩], [], []⟩
      ⟨1, "a@x.com", "pw1234"⟩).2.1 (by decide) 5 (by decide),
   (c2_token_lifecycle 1 0 ⟨[⟨1, "a@x.com", "pw1234"⟩], [], []⟩
      ⟨1, "a@x.com", "pw1234"⟩).2.2 4000 (by decide)⟩

/-- C3 counterexample: a validly signed, structurally well-formed token whose
embedded subject (999) matches no user in the store is nevertheless rejected
with 401 "Token expired" — not "Invalid token" — when it is also expired,
because the signature and the expiry are checked before the subject lookup.
This refutes the claimed "exactly when" characterisation of TokenInvalid. -/
theorem c3_counterexample :
    (Token.signed ⟨999, 5⟩ ⟨999, 5⟩ "").sigOk = true ∧
    (Token.signed ⟨999, 5⟩ ⟨999, 5⟩ "").isMalformed = false ∧
    (Token.signed ⟨999, 5⟩ ⟨999, 5⟩ "").subjectResolves ⟨[], [], []⟩ = false ∧
    verify_token (Token.signed ⟨999, 5⟩ ⟨999, 5⟩ "") ⟨[], [], []⟩ 10 =
      .error { status_code := 401, detail := "Token expired" } := by
  decide

/-- C3 (amended): verification fails with 401 "Invalid token" exactly when
the token is malformed, its signature does not verify, or it is unexpired
and its embedded subject matches no user in the store (an expired token with
an unresolvable subject reports "Token expired" instead); in particular every
tampered or malformed token fails with "Invalid token" — never accepted and
never reported expired. -/
theorem c3_invalid_iff (t : Token) (s : AppState) (now : Nat) :
    (verify_token t s now = .error { status_code := 401, detail := "Invalid token" } ↔
      (t.isMalformed = true ∨ t.sigOk = false ∨
        (t.unexpiredAt now = true ∧ t.subjectResolves s = false))) ∧
    (t.isMalformed = true ∨ t.sigOk = false →
      verify_token t s now = .error { status_code := 401, detail := "Invalid token" }) := by
  have main :
      verify_token t s now = .error { status_code := 401, detail := "Invalid token" } ↔
        (t.isMalformed = true ∨ t.sigOk = false ∨
          (t.unexpiredAt now = true ∧ t.subjectResolves s = false)) := by
    cases t with
    | malformed raw =>
      simp [verify_token, jwtDecode, Token.isMalformed]
    | signed pl sp sk =>
      by_cases hsig : sp = pl ∧ sk = SECRET_KEY
      · have hsigOk : (Token.signed pl sp sk).sigOk = true := by
          simp [Token.sigOk, hsig.1, hsig.2]
        by_cases hexp : pl.exp ≤ now
        · have hdec : jwtDecode (Token.signed pl sp sk) SECRET_KEY now =
              .error .ExpiredSignatureError := by
            simp only [jwtDecode]
            rw [if_pos hsig, if_pos hexp]
          simp [verify_token, hdec, Token.isMalformed, hsigOk, Token.unexpiredAt,
            Nat.not_lt.mpr hexp]
        · have hdec : jwtDecode (Token.signed pl sp sk) SECRET_KEY now = .ok pl := by
            simp only [jwtDecode]
            rw [if_pos hsig, if_neg hexp]
          cases hfind : s.users.find? (fun u => u.id == pl.sub) with
          | some u =>
            have hres : (Token.signed pl sp sk).subjectResolves s = true := by
              have hmem := List.mem_of_find?_eq_some hfind
              have hp := List.find?_some hfind
              simp only [Token.subjectResolves]
              exact List.any_eq_true.mpr ⟨u, hmem, hp⟩
            simp [verify_token, hdec, hfind, Token.isMalformed, hsigOk, hres]
          | none =>
            have hres : (Token.signed pl sp sk).subjectResolves s = false := by
              simp only [Token.subjectResolves]
              rw [List.any_eq_false]
              intro u hu
              have h := List.find?_eq_none.mp hfind u hu
              simpa using h
            simp [verify_token, hdec, hfind, Token.isMalformed, hsigOk,
              Token.unexpiredAt, Nat.lt_of_not_le hexp, hres]
      · have hdec : jwtDecode (Token.signed pl sp sk) SECRET_KEY now =
            .error .InvalidTokenError := by
          simp only [jwtDecode]
          rw [if_neg hsig]
        have hso : (Token.signed pl sp sk).sigOk = false := by
          cases h : (Token.signed pl sp sk).sigOk
          · rfl
          · exfalso
            simp only [Token.sigOk, Bool.and_eq_true, beq_iff_eq] at h
            exact hsig h
        simp [verify_token, hdec, hso]
  refine ⟨main, ?_⟩
  intro h
  exact main.mpr (by tauto)

/-- Witness for C3 (amended): a malformed token string is rejected with
401 "Invalid token". -/
theorem c3_invalid_iff_witness :
    verify_token (Token.malformed "garbage") ⟨[], [], []⟩ 0 =
      .error { status_code := 401, detail := "Invalid token" } :=
  (c3_invalid_iff (Token.malformed "garbage") ⟨[], [], []⟩ 0).2 (Or.inl rfl)

/-- C9: the concrete scenario from the spec, starting from an empty store:
signup("a@x.com","secret1") yields a token for user id 1; addpost with that
token and text "hello" yields postID 1; getposts then returns exactly
[{id 1, text "hello"}]; deletepost(1) returns the confirmation; a final
getposts returns the empty list. -/
theorem c9_concrete_flow :
    signupEndpoint { email := "a@x.com", password := "secret1" } ⟨[], [], []⟩ 0 =
      (Except.ok (create_token 1 0), ⟨[⟨1, "a@x.com", "secret1"⟩], [], []⟩) ∧
    addPostEndpoint { text := "hello" } (create_token 1 0)
        ⟨[⟨1, "a@x.com", "secret1"⟩], [], []⟩ 1 =
      (Except.ok 1, ⟨[⟨1, "a@x.com", "secret1"⟩], [⟨1, "hello", 1⟩], []⟩) ∧
    getPostsEndpoint (create_token 1 0)
        ⟨[⟨1, "a@x.com", "secret1"⟩], [⟨1, "hello", 1⟩], []⟩ 2 =
      (Except.ok [⟨1, "hello"⟩],
        ⟨[⟨1, "a@x.com", "secret1"⟩], [⟨1, "hello", 1⟩], [⟨1, [⟨1, "hello", 1⟩], 2⟩]⟩) ∧
    delete_post 1 (create_token 1 0)
        ⟨[⟨1, "a@x.com", "secret1"⟩], [⟨1, "hello", 1⟩], [⟨1, [⟨1, "hello", 1⟩], 2⟩]⟩ 3 =
      (Except.ok "Post deleted", ⟨[⟨1, "a@x.com", "secret1"⟩], [], []⟩) ∧
    getPostsEndpoint (create_token 1 0) ⟨[⟨1, "a@x.com", "secret1"⟩], [], []⟩ 4 =
      (Except.ok [], ⟨[⟨1, "a@x.com", "secret1"⟩], [], [⟨1, [], 4⟩]⟩) := by
  decide

/-- C8: the post cache never serves an entry whose age reached the 300-second
TTL (a hit always comes from an entry inserted less than 300 seconds ago);
an insert leaves at most 100 entries; and inserting a new key into a full
cache of 100 fresh, distinct keys evicts some existing entry's key. -/
theorem c8_cache_ttl_and_capacity :
    (∀ (now : Nat) (c : List CacheEntry) (k : Nat) (v : List Post),
      cacheGet now c k = some v →
        ∃ e ∈ c, e.key = k ∧ e.value = v ∧ now < e.insertedAt + CACHE_TTL) ∧
    (∀ (now : Nat) (c : List CacheEntry) (k : Nat) (v : List Post),
      (cacheSet now c k v).length ≤ CACHE_MAXSIZE) ∧
    (∀ (now : Nat) (c : List CacheEntry) (k : Nat) (v : List Post),
      c.length = CACHE_MAXSIZE →
      (∀ e ∈ c, now < e.insertedAt + CACHE_TTL) →
      (∀ e ∈ c, e.key ≠ k) →
      (c.map CacheEntry.key).Nodup →
      ∃ e ∈ c, ∀ e' ∈ cacheSet now c k v, e'.key ≠ e.key) := by
  refine ⟨?_, ?_, ?_⟩
  · intro now c k v h
    unfold cacheGet at h
    cases hf : (cacheExpire now c).find? (fun e => e.key == k) with
    | none => rw [hf] at h; exact absurd h (by simp)
    | some e =>
      rw [hf] at h
      have hv : e.value = v := by injection h
      have hmem := List.mem_of_find?_eq_some hf
      have hkey := List.find?_some hf
      simp only [cacheExpire] at hmem
      have hin := List.mem_filter.mp hmem
      refine ⟨e, hin.1, by simpa using hkey, hv, ?_⟩
      simpa using hin.2
  · intro now c k v
    simp only [cacheSet, List.length_drop, CACHE_MAXSIZE]
    omega
  · intro now c k v hlen hfresh hkeys hnodup
    have hexpire : cacheExpire now c = c := by
      simp only [cacheExpire]
      rw [List.filter_eq_self]
      intro e he
      simpa using hfresh e he
    have hkfilter : c.filter (fun e => e.key != k) = c := by
      rw [List.filter_eq_self]
      intro e he
      simpa using hkeys e he
    have hset : cacheSet now c k v =
        (c ++ [({ key := k, value := v, insertedAt := now } : CacheEntry)]).drop 1 := by
      simp only [cacheSet, hexpire, hkfilter]
      congr 1
      rw [List.length_append, hlen]
      simp [CACHE_MAXSIZE]
    cases c with
    | nil => simp [CACHE_MAXSIZE] at hlen
    | cons e rest =>
      refine ⟨e, List.mem_cons_self _ _, ?_⟩
      intro e' he'
      rw [hset] at he'
      simp only [List.cons_append, List.drop_succ_cons, List.drop_zero] at he'
      rcases List.mem_append.mp he' with h1 | h2
      · intro hEq
        have hk : e.key ∈ rest.map CacheEntry.key := List.mem_map.mpr ⟨e', h1, hEq⟩
        have hnd := hnodup
        simp only [List.map_cons, List.nodup_cons] at hnd
        exact hnd.1 hk
      · have he'' : e' = { key := k, value := v, insertedAt := now } := by simpa using h2
        rw [he'']
        intro hEq
        exact hkeys e (List.mem_cons_self _ _) hEq.symm

/-- Witness for C8: a fresh hit on a one-entry cache is traced back to its
entry, an insert at full capacity keeps the size at 100 and evicts the
oldest key. -/
theorem c8_cache_ttl_and_capacity_witness :
    (∃ e ∈ [({ key := 7, value := [], insertedAt := 0 } : CacheEntry)],
      e.key = 7 ∧ e.value = [] ∧ 10 < e.insertedAt + CACHE_TTL) ∧
    (cacheSet 0 ((List.range 100).map (fun i => { key := i, value := [], insertedAt := 0 }))
        100 []).length ≤ CACHE_MAXSIZE ∧
    ∃ e ∈ (List.range 100).map
        (fun i => ({ key := i, value := [], insertedAt := 0 } : CacheEntry)),
      ∀ e' ∈ cacheSet 0
          ((List.range 100).map (fun i => { key := i, value := [], insertedAt := 0 }))
          100 [], e'.key ≠ e.key := by
  refine ⟨?_, ?_, ?_⟩
  · exact c8_cache_ttl_and_capacity.1 10 [{ key := 7, value := [], insertedAt := 0 }] 7 []
      (by decide)
  · exact c8_cache_ttl_and_capacity.2.1 0 _ 100 []
  · exact c8_cache_ttl_and_capacity.2.2 0 _ 100 [] (by decide) (by decide) (by decide)
      (by decide)

/-- Inversion of a successful `add_post`: the returned id is the fresh
primary key and the new state appends exactly one post for the caller and
pops the caller's cache entry. -/
theorem add_post_ok_elim {pc : PostCreate} {tok : Token} {s : AppState} {now : Nat}
    {pid : Nat} {s' : AppState} {u : User}
    (hv : verify_token tok s now = .ok u)
    (h : add_post pc tok s now = (Except.ok pid, s')) :
    pid = nextId (s.posts.map Post.id) ∧
    s' = { s with
            posts := s.posts ++ [{ id := pid, text := pc.text, owner_id := u.id }],
            post_cache := cachePop s.post_cache u.id } := by
  simp only [add_post, hv] at h
  rw [Prod.mk.injEq] at h
  obtain ⟨h1, h2⟩ := h
  rw [Except.ok.injEq] at h1
  subst h1
  exact ⟨rfl, h2.symm⟩

/-- Inversion of a successful `delete_post`: the query matched some row, the
confirmation is returned, and the new state erases the matched row and pops
the caller's cache entry. -/
theorem delete_post_ok_elim {pid : Nat} {tok : Token} {s : AppState} {now : Nat}
    {msg : String} {s' : AppState} {u : User}
    (hv : verify_token tok s now = .ok u)
    (h : delete_post pid tok s now = (Except.ok msg, s')) :
    (∃ q, s.posts.find? (fun p => p.id == pid && p.owner_id == u.id) = some q) ∧
    msg = "Post deleted" ∧
    s' = { s with
            posts := s.posts.eraseP (fun p => p.id == pid && p.owner_id == u.id),
            post_cache := cachePop s.post_cache u.id } := by
  simp only [delete_post, hv] at h
  cases hfind : s.posts.find? (fun p => p.id == pid && p.owner_id == u.id) with
  | none =>
    rw [hfind] at h
    rw [Prod.mk.injEq] at h
    exact absurd h.1 (by simp)
  | some q =>
    rw [hfind] at h
    rw [Prod.mk.injEq] at h
    obtain ⟨h1, h2⟩ := h
    rw [Except.ok.injEq] at h1
    exact ⟨⟨q, rfl⟩, h1.symm, h2.symm⟩

/-- C1: a successful add-post or delete-post for the authenticated user pops
that user's cache entry in the returned state (so any later lookup of that
key misses), and a get-posts for the same user id issued against the
post-write state returns exactly the post-write store contents for that
user, never a stale cached list. -/
theorem c1_write_invalidates (s : AppState) (now : Nat) (tok : Token) (u : User)
    (hv : verify_token tok s now = .ok u) :
    (∀ pc pid s', add_post pc tok s now = (Except.ok pid, s') →
      (∀ t, cacheGet t s'.post_cache u.id = none) ∧
      ∀ t2 tok2 u2, verify_token tok2 s' t2 = .ok u2 → u2.id = u.id →
        (get_posts tok2 s' t2).1 =
          Except.ok (s'.posts.filter (fun p => p.owner_id == u2.id))) ∧
    (∀ pid msg s', delete_post pid tok s now = (Except.ok msg, s') →
      (∀ t, cacheGet t s'.post_cache u.id = none) ∧
      ∀ t2 tok2 u2, verify_token tok2 s' t2 = .ok u2 → u2.id = u.id →
        (get_posts tok2 s' t2).1 =
          Except.ok (s'.posts.filter (fun p => p.owner_id == u2.id))) := by
  constructor
  · intro pc pid s' h
    obtain ⟨hpid, hs'⟩ := add_post_ok_elim hv h
    have hcache : s'.post_cache = cachePop s.post_cache u.id := by rw [hs']
    constructor
    · intro t
      rw [hcache]
      exact cacheGet_cachePop t s.post_cache u.id
    · intro t2 tok2 u2 hv2 hid
      have hmiss : cacheGet t2 s'.post_cache u2.id = none := by
        rw [hcache, hid]
        exact cacheGet_cachePop t2 s.post_cache u.id
      simp only [get_posts, hv2, hmiss]
  · intro pid msg s' h
    obtain ⟨-, -, hs'⟩ := delete_post_ok_elim hv h
    have hcache : s'.post_cache = cachePop s.post_cache u.id := by rw [hs']
    constructor
    · intro t
      rw [hcache]
      exact cacheGet_cachePop t s.post_cache u.id
    · intro t2 tok2 u2 hv2 hid
      have hmiss : cacheGet t2 s'.post_cache u2.id = none := by
        rw [hcache, hid]
        exact cacheGet_cachePop t2 s.post_cache u.id
      simp only [get_posts, hv2, hmiss]

/-- C10: neither write endpoint ever modifies the `users` table; a
successful add-post appends exactly one post row, owned by the
authenticated user, leaving all earlier rows unchanged; a successful
delete-post removes exactly one row — one matching the given id and the
authenticated owner — leaving every other row unchanged in order. -/
theorem c10_frame_conditions (s : AppState) (now : Nat) (tok : Token) :
    (∀ pc, (add_post pc tok s now).2.users = s.users) ∧
    (∀ pid, (delete_post pid tok s now).2.users = s.users) ∧
    ∀ u, verify_token tok s now = .ok u →
      (∀ pc pid s', add_post pc tok s now = (Except.ok pid, s') →
        s'.users = s.users ∧
        s'.posts = s.posts ++ [{ id := pid, text := pc.text, owner_id := u.id }]) ∧
      (∀ pid msg s', delete_post pid tok s now = (Except.ok msg, s') →
        s'.users = s.users ∧
        ∃ q l₁ l₂, s.posts = l₁ ++ q :: l₂ ∧ s'.posts = l₁ ++ l₂ ∧
          q.id = pid ∧ q.owner_id = u.id) := by
  refine ⟨?_, ?_, ?_⟩
  · intro pc
    cases hv : verify_token tok s now <;> simp [add_post, hv]
  · intro pid
    cases hv : verify_token tok s now with
    | error e => simp [delete_post, hv]
    | ok u =>
      cases hfind : s.posts.find? (fun p => p.id == pid && p.owner_id == u.id) <;>
        simp [delete_post, hv, hfind]
  · intro u hv
    constructor
    · intro pc pid s' h
      obtain ⟨hpid, hs'⟩ := add_post_ok_elim hv h
      rw [hs']
      exact ⟨rfl, rfl⟩
    · intro pid msg s' h
      obtain ⟨⟨q, hfind⟩, -, hs'⟩ := delete_post_ok_elim hv h
      refine ⟨by rw [hs'], ?_⟩
      have hqmem := List.mem_of_find?_eq_some hfind
      have hqp := List.find?_some hfind
      obtain ⟨a, l₁, l₂, hl₁, hpa, hsplit, herase⟩ :=
        List.exists_of_eraseP (p := fun p => p.id == pid && p.owner_id == u.id) hqmem hqp
      have hprops : a.id = pid ∧ a.owner_id = u.id := by
        simp only [Bool.and_eq_true, beq_iff_eq] at hpa
        exact hpa
      refine ⟨a, l₁, l₂, hsplit, ?_, hprops.1, hprops.2⟩
      rw [hs']
      exact herase

/-- C4: signup with an already-registered email fails with 400 and leaves the
state unchanged; signup with a new email and a valid body creates exactly one
user carrying the given credentials and returns a token whose embedded
subject resolves, on the new state, to that created user; a password shorter
than 6 characters is rejected at input validation. -/
theorem c4_signup_behaviour (u : UserCreate) (s : AppState) (now : Nat) :
    (u.validOk = true → s.users.any (fun x => x.email == u.email) = true →
      signupEndpoint u s now =
        (.error { status_code := 400, detail := "Email already registered" }, s)) ∧
    (u.validOk = true → s.users.any (fun x => x.email == u.email) = false →
      ∃ nu : User,
        signupEndpoint u s now =
          (.ok (create_token nu.id now), { s with users := s.users ++ [nu] }) ∧
        nu.email = u.email ∧ nu.password = u.password ∧
        verify_token (create_token nu.id now) { s with users := s.users ++ [nu] } now =
          .ok nu) ∧
    (u.password.length < 6 → signupEndpoint u s now = (.error validationError, s)) := by
  refine ⟨?_, ?_, ?_⟩
  · intro hval hdup
    simp only [signupEndpoint, hval, if_true, signup, hdup]
  · intro hval hdup
    refine ⟨{ id := nextId (s.users.map User.id), email := u.email, password := u.password },
      ?_, rfl, rfl, ?_⟩
    · simp only [signupEndpoint, hval, if_true, signup, hdup]
      rfl
    · apply verify_create_ok now now ?_ (by omega)
      show (s.users ++
          [({ id := nextId (s.users.map User.id), email := u.email,
              password := u.password } : User)]).find?
            (fun x => x.id == nextId (s.users.map User.id)) = some _
      rw [find?_append_right]
      · exact List.find?_cons_of_pos _ (by simp)
      · intro x hx
        have hle := le_foldr_max (s.users.map User.id) x.id (List.mem_map.mpr ⟨x, hx, rfl⟩)
        have hne : x.id ≠ nextId (s.users.map User.id) := by
          unfold nextId
          omega
        simpa using hne
  · intro hshort
    have hval : u.validOk = false := by
      simp [UserCreate.validOk, Nat.not_le.mpr hshort]
    simp [signupEndpoint, hval]

/-- C5: get-posts consults the cache first: on a hit it returns the cached
list unchanged for every possible content of the post table (so the store is
not read) and leaves the state as it was; on a miss it returns exactly the
posts owned by the authenticated user — all of them, no other user's, in
table order — and caches that list under the user's id. -/
theorem c5_get_posts_consults_cache (tok : Token) (s : AppState) (now : Nat) (u : User)
    (hv : verify_token tok s now = .ok u) :
    (∀ v, cacheGet now s.post_cache u.id = some v →
      ∀ ps : List Post,
        get_posts tok { s with posts := ps } now = (Except.ok v, { s with posts := ps })) ∧
    (cacheGet now s.post_cache u.id = none →
      get_posts tok s now =
        (Except.ok (s.posts.filter (fun p => p.owner_id == u.id)),
          { s with post_cache := cacheSet now s.post_cache u.id (s.posts.filter (fun p => p.owner_id == u.id)) }) ∧
      (∀ p : Post,
        p ∈ s.posts.filter (fun q => q.owner_id == u.id) ↔
          p ∈ s.posts ∧ p.owner_id = u.id) ∧
      (s.posts.filter (fun q => q.owner_id == u.id)).Sublist s.posts) := by
  constructor
  · intro v hhit ps
    have hv' : verify_token tok { s with posts := ps } now = .ok u := by
      rw [verify_token_set_posts]
      exact hv
    simp only [get_posts, hv']
    rw [show ({ s with posts := ps } : AppState).post_cache = s.post_cache from rfl, hhit]
  · intro hmiss
    refine ⟨?_, ?_, List.filter_sublist _⟩
    · simp only [get_posts, hv, hmiss]
    · intro p
      constructor
      · intro hp
        have hp' := List.mem_filter.mp hp
        exact ⟨hp'.1, by simpa using hp'.2⟩
      · intro hp
        exact List.mem_filter.mpr ⟨hp.1, by simpa using hp.2⟩

/-- C6: for an authenticated user, delete-post succeeds exactly when a post
with the given id owned by that user exists: on success the matched row is
erased, and when no such post exists (absent id or a different owner) it
fails with 404 "Post not found" and the whole state — post store included —
is unchanged. -/
theorem c6_delete_scoped_to_owner (pid : Nat) (tok : Token) (s : AppState) (now : Nat)
    (u : User) (hv : verify_token tok s now = .ok u) :
    ((∃ p ∈ s.posts, p.id = pid ∧ p.owner_id = u.id) →
      ∃ s', delete_post pid tok s now = (Except.ok "Post deleted", s') ∧
        s'.posts = s.posts.eraseP (fun p => p.id == pid && p.owner_id == u.id)) ∧
    ((∀ p ∈ s.posts, ¬(p.id = pid ∧ p.owner_id = u.id)) →
      delete_post pid tok s now =
        (Except.error { status_code := 404, detail := "Post not found" }, s)) := by
  constructor
  · intro hex
    obtain ⟨p, hmem, hpid, hown⟩ := hex
    cases hfind : s.posts.find? (fun q => q.id == pid && q.owner_id == u.id) with
    | none =>
      exfalso
      have hno := List.find?_eq_none.mp hfind p hmem
      simp [hpid, hown] at hno
    | some q =>
      refine ⟨{ s with
          posts := s.posts.eraseP (fun p => p.id == pid && p.owner_id == u.id),
          post_cache := cachePop s.post_cache u.id }, ?_, rfl⟩
      simp only [delete_post, hv, hfind]
  · intro hnone
    have hfind : s.posts.find? (fun q => q.id == pid && q.owner_id == u.id) = none := by
      refine List.find?_eq_none.mpr ?_
      intro x hx
      have hnx := hnone x hx
      simp only [Bool.and_eq_true, beq_iff_eq]
      tauto
    simp only [delete_post, hv, hfind]

/-- C7: for an authenticated user, any text accepted by input validation
round-trips: adding the post and then fetching posts returns a post whose
text equals the submitted text exactly; a text of exactly 1,000,000
characters passes validation, while a text of 1,000,001 characters is
rejected at input validation with no state change. -/
theorem c7_roundtrip_and_bounds (s : AppState) (now : Nat) (tok : Token) (u : User)
    (T : String) (hv : verify_token tok s now = .ok u) :
    (PostCreate.validOk { text := T } = true →
      ∃ pid s', addPostEndpoint { text := T } tok s now = (Except.ok pid, s') ∧
        ∃ res s'', get_posts tok s' now = (Except.ok res, s'') ∧
          ({ id := pid, text := T, owner_id := u.id } : Post) ∈ res) ∧
    (T.length = 1000000 → PostCreate.validOk { text := T } = true) ∧
    (T.length = 1000001 →
      addPostEndpoint { text := T } tok s now = (Except.error validationError, s)) := by
  obtain ⟨us, ps, pc⟩ := s
  refine ⟨?_, ?_, ?_⟩
  · intro hval
    refine ⟨nextId (ps.map Post.id),
      ⟨us, ps ++ [({ id := nextId (ps.map Post.id), text := T, owner_id := u.id } : Post)],
        cachePop pc u.id⟩, ?_, ?_⟩
    · simp only [addPostEndpoint, hval, if_true, add_post, hv]
    · have hv' : verify_token tok
          ⟨us, ps ++ [({ id := nextId (ps.map Post.id), text := T, owner_id := u.id } : Post)],
            cachePop pc u.id⟩ now = .ok u := hv
      have hmiss : cacheGet now (cachePop pc u.id) u.id = none :=
        cacheGet_cachePop now pc u.id
      refine ⟨(ps ++ [({ id := nextId (ps.map Post.id), text := T, owner_id := u.id } : Post)]).filter
          (fun p => p.owner_id == u.id),
        ⟨us, ps ++ [({ id := nextId (ps.map Post.id), text := T, owner_id := u.id } : Post)],
          cacheSet now (cachePop pc u.id) u.id
            ((ps ++ [({ id := nextId (ps.map Post.id), text := T, owner_id := u.id } : Post)]).filter
              (fun p => p.owner_id == u.id))⟩, ?_, ?_⟩
      · simp only [get_posts, hv', hmiss]
      · apply List.mem_filter.mpr
        exact ⟨List.mem_append.mpr (Or.inr (by simp)), by simp⟩
  · intro hT
    simp [PostCreate.validOk, hT]
  · intro hT
    have hval : PostCreate.validOk { text := T } = false := by
      simp [PostCreate.validOk, hT]
    simp [addPostEndpoint, hval]

/-- Witness for C1: after adding a post for user 1, the cache entry for
key 1 misses at any later time. -/
theorem c1_write_invalidates_witness :
    cacheGet 5
      ((⟨[⟨1, "a@x.com", "secret1"⟩], [⟨1, "hello", 1⟩, ⟨2, "x", 1⟩], []⟩ :
        AppState)).post_cache 1 = none :=
  ((c1_write_invalidates ⟨[⟨1, "a@x.com", "secret1"⟩], [⟨1, "hello", 1⟩], []⟩ 0
      (create_token 1 0) ⟨1, "a@x.com", "secret1"⟩ (by decide)).1
    { text := "x" } 2
    ⟨[⟨1, "a@x.com", "secret1"⟩], [⟨1, "hello", 1⟩, ⟨2, "x", 1⟩], []⟩ (by decide)).1 5

/-- Witness for C4: a duplicate email is rejected with 400 leaving the state
unchanged, and a 5-character password is rejected at validation. -/
theorem c4_signup_behaviour_witness :
    signupEndpoint ⟨"a@x.com", "secret1"⟩ ⟨[⟨1, "a@x.com", "pw1234"⟩], [], []⟩ 0 =
      (.error { status_code := 400, detail := "Email already registered" },
        ⟨[⟨1, "a@x.com", "pw1234"⟩], [], []⟩) ∧
    signupEndpoint ⟨"b@x.com", "abcde"⟩ ⟨[], [], []⟩ 0 =
      (.error validationError, ⟨[], [], []⟩) :=
  ⟨(c4_signup_behaviour ⟨"a@x.com", "secret1"⟩ ⟨[⟨1, "a@x.com", "pw1234"⟩], [], []⟩ 0).1
      (by decide) (by decide),
   (c4_signup_behaviour ⟨"b@x.com", "abcde"⟩ ⟨[], [], []⟩ 0).2.2 (by decide)⟩

/-- Witness for C5: a fresh cached list is served back unchanged on a hit,
with the state untouched. -/
theorem c5_get_posts_consults_cache_witness :
    get_posts (create_token 1 0)
        ⟨[⟨1, "a@x.com", "secret1"⟩], [⟨1, "hello", 1⟩], [⟨1, [⟨1, "hello", 1⟩], 0⟩]⟩ 10 =
      (Except.ok [⟨1, "hello", 1⟩],
        ⟨[⟨1, "a@x.com", "secret1"⟩], [⟨1, "hello", 1⟩], [⟨1, [⟨1, "hello", 1⟩], 0⟩]⟩) :=
  (c5_get_posts_consults_cache (create_token 1 0)
      ⟨[⟨1, "a@x.com", "secret1"⟩], [⟨1, "hello", 1⟩], [⟨1, [⟨1, "hello", 1⟩], 0⟩]⟩ 10
      ⟨1, "a@x.com", "secret1"⟩ (by decide)).1
    [⟨1, "hello", 1⟩] (by decide) [⟨1, "hello", 1⟩]

/-- Witness for C6: deleting post 1 owned by user 1 succeeds, and deleting a
nonexistent post 99 fails with 404 leaving the state unchanged. -/
theorem c6_delete_scoped_to_owner_witness :
    (∃ s', delete_post 1 (create_token 1 0)
        ⟨[⟨1, "a@x.com", "secret1"⟩], [⟨1, "hello", 1⟩], []⟩ 0 =
          (Except.ok "Post deleted", s') ∧
      s'.posts = [⟨1, "hello", 1⟩].eraseP (fun p => p.id == 1 && p.owner_id == 1)) ∧
    delete_post 99 (create_token 1 0)
        ⟨[⟨1, "a@x.com", "secret1"⟩], [⟨1, "hello", 1⟩], []⟩ 0 =
      (Except.error { status_code := 404, detail := "Post not found" },
        ⟨[⟨1, "a@x.com", "secret1"⟩], [⟨1, "hello", 1⟩], []⟩) :=
  ⟨(c6_delete_scoped_to_owner 1 (create_token 1 0)
      ⟨[⟨1, "a@x.com", "secret1"⟩], [⟨1, "hello", 1⟩], []⟩ 0
      ⟨1, "a@x.com", "secret1"⟩ (by decide)).1 ⟨⟨1, "hello", 1⟩, by decide, rfl, rfl⟩,
   (c6_delete_scoped_to_owner 99 (create_token 1 0)
      ⟨[⟨1, "a@x.com", "secret1"⟩], [⟨1, "hello", 1⟩], []⟩ 0
      ⟨1, "a@x.com", "secret1"⟩ (by decide)).2 (by decide)⟩

/-- Witness for C7: a 1,000,000-character text passes validation, a
1,000,001-character text is rejected at validation with the state unchanged,
and a short text round-trips through add-post and get-posts. -/
theorem c7_roundtrip_and_bounds_witness :
    PostCreate.validOk { text := String.mk (List.replicate 1000000 'a') } = true ∧
    addPostEndpoint { text := String.mk (List.replicate 1000001 'a') } (create_token 1 0)
        ⟨[⟨1, "a@x.com", "secret1"⟩], [], []⟩ 0 =
      (Except.error validationError, ⟨[⟨1, "a@x.com", "secret1"⟩], [], []⟩) ∧
    (∃ pid s', addPostEndpoint { text := "hi" } (create_token 1 0)
        ⟨[⟨1, "a@x.com", "secret1"⟩], [], []⟩ 0 = (Except.ok pid, s') ∧
      ∃ res s'', get_posts (create_token 1 0) s' 0 = (Except.ok res, s'') ∧
        ({ id := pid, text := "hi", owner_id := 1 } : Post) ∈ res) :=
  ⟨(c7_roundtrip_and_bounds ⟨[⟨1, "a@x.com", "secret1"⟩], [], []⟩ 0 (create_token 1 0)
      ⟨1, "a@x.com", "secret1"⟩ (String.mk (List.replicate 1000000 'a'))
      (by decide)).2.1 (List.length_replicate 1000000 'a'),
   (c7_roundtrip_and_bounds ⟨[⟨1, "a@x.com", "secret1"⟩], [], []⟩ 0 (create_token 1 0)
      ⟨1, "a@x.com", "secret1"⟩ (String.mk (List.replicate 1000001 'a'))
      (by decide)).2.2 (List.length_replicate 1000001 'a'),
   (c7_roundtrip_and_bounds ⟨[⟨1, "a@x.com", "secret1"⟩], [], []⟩ 0 (create_token 1 0)
      ⟨1, "a@x.com", "secret1"⟩ "hi" (by decide)).1 (by decide)⟩

/-- Witness for C10: adding a post never touches the users table, and a
successful delete decomposes the post table around the single removed row. -/
theorem c10_frame_conditions_witness :
    (add_post { text := "x" } (create_token 1 0)
        ⟨[⟨1, "a@x.com", "secret1"⟩], [⟨1, "hello", 1⟩], []⟩ 0).2.users =
      (⟨[⟨1, "a@x.com", "secret1"⟩], [⟨1, "hello", 1⟩], []⟩ : AppState).users ∧
    ((⟨[⟨1, "a@x.com", "secret1"⟩], [], []⟩ : AppState).users =
        (⟨[⟨1, "a@x.com", "secret1"⟩], [⟨1, "hello", 1⟩], []⟩ : AppState).users ∧
      ∃ q l₁ l₂,
        (⟨[⟨1, "a@x.com", "secret1"⟩], [⟨1, "hello", 1⟩], []⟩ : AppState).posts =
          l₁ ++ q :: l₂ ∧
        (⟨[⟨1, "a@x.com", "secret1"⟩], [], []⟩ : AppState).posts = l₁ ++ l₂ ∧
        q.id = 1 ∧ q.owner_id = 1) :=
  ⟨(c10_frame_conditions ⟨[⟨1, "a@x.com", "secret1"⟩], [⟨1, "hello", 1⟩], []⟩ 0
      (create_token 1 0)).1 { text := "x" },
   ((c10_frame_conditions ⟨[⟨1, "a@x.com", "secret1"⟩], [⟨1, "hello", 1⟩], []⟩ 0
      (create_token 1 0)).2.2 ⟨1, "a@x.com", "secret1"⟩ (by decide)).2 1 "Post deleted"
      ⟨[⟨1, "a@x.com", "secret1"⟩], [], []⟩ (by decide)⟩

end ApiTask
